import Mathlib

/-!
Formal model of `run-command.c` / `run-command.h`: the process-launching
facility (start_command / finish_command / run_command), the convenience
wrappers (run_command_v_opt and friends), and the async worker pipeline
(start_async / finish_async).

The embedding is shallow: OS effects (pipe, fork, close, waitpid, chdir,
exec) are made explicit.  Pipe and fork success/failure is driven by a
`Sys` oracle; the parent's file-descriptor table is an explicit `FdState`;
the child branch is reified into a `ChildRun` value recording the stream
wiring and the child's outcome (exec or fatal death); `waitpid` results
are supplied as a list of `WaitRes` values, one per call of the retry loop
in `wait_or_whine`.
-/

/-- Error codes of `run-command.h` lines 4-12 (a C enum starting at 10000). -/
def ERR_RUN_COMMAND_FORK : Int := 10000

/-- Error code `ERR_RUN_COMMAND_EXEC` (10001). -/
def ERR_RUN_COMMAND_EXEC : Int := 10001

/-- Error code `ERR_RUN_COMMAND_PIPE` (10002). -/
def ERR_RUN_COMMAND_PIPE : Int := 10002

/-- Error code `ERR_RUN_COMMAND_WAITPID` (10003). -/
def ERR_RUN_COMMAND_WAITPID : Int := 10003

/-- Error code `ERR_RUN_COMMAND_WAITPID_WRONG_PID` (10004). -/
def ERR_RUN_COMMAND_WAITPID_WRONG_PID : Int := 10004

/-- Error code `ERR_RUN_COMMAND_WAITPID_SIGNAL` (10005). -/
def ERR_RUN_COMMAND_WAITPID_SIGNAL : Int := 10005

/-- Error code `ERR_RUN_COMMAND_WAITPID_NOEXIT` (10006). -/
def ERR_RUN_COMMAND_WAITPID_NOEXIT : Int := 10006

/-- The reserved system error codes of `run-command.h`, as a list. -/
def sysErrCodes : List Int :=
  [ERR_RUN_COMMAND_FORK, ERR_RUN_COMMAND_EXEC, ERR_RUN_COMMAND_PIPE,
   ERR_RUN_COMMAND_WAITPID, ERR_RUN_COMMAND_WAITPID_WRONG_PID,
   ERR_RUN_COMMAND_WAITPID_SIGNAL, ERR_RUN_COMMAND_WAITPID_NOEXIT]

/-- The waitpid status-word decomposition (standard encoding: low 7 bits are
the terminating signal, bit 7 is the core flag, bits 8-15 the exit code).
`WIFEXITED(s)` is `(s & 0x7f) == 0`. -/
def WIFEXITED (s : Nat) : Bool := s % 128 == 0

/-- `WIFSIGNALED(s)`: the low 7 bits are a real signal number (not 0, not 0x7f). -/
def WIFSIGNALED (s : Nat) : Bool := s % 128 != 0 && s % 128 != 127

/-- `WEXITSTATUS(s)` is `(s >> 8) & 0xff`. -/
def WEXITSTATUS (s : Nat) : Nat := (s / 256) % 256

/-- The status word `waitpid` reports for a child that called `exit(code)`:
`(code & 0xff) << 8`. -/
def exit_wait_status (code : Nat) : Nat := (code % 256) * 256

/-- The errno of a failed `waitpid` call, as `wait_or_whine` distinguishes it:
either `EINTR` (retry) or anything else. -/
inductive Errno where
  | EINTR
  | other
deriving DecidableEq, Repr

/-- One result of one `waitpid(pid, &status, 0)` call: either a failure with
an errno, or a reaped pid together with its raw status word. -/
inductive WaitRes where
  | fail (e : Errno)
  | reaped (waiting : Int) (status : Nat)
deriving DecidableEq, Repr

/-- The exit translator `wait_or_whine` (run-command.c lines 130-154).  The
list supplies the successive results of the `waitpid` calls made by the
retry loop; `none` means the loop never got a decisive result (it would
still be looping). -/
def wait_or_whine (pid : Int) : List WaitRes → Option Int
  | [] => none
  | WaitRes.fail e :: rest =>
    match e with
    | Errno.EINTR => wait_or_whine pid rest
    | Errno.other => some (-ERR_RUN_COMMAND_WAITPID)
  | WaitRes.reaped waiting status :: _ =>
    if waiting ≠ pid then some (-ERR_RUN_COMMAND_WAITPID_WRONG_PID)
    else if WIFSIGNALED status then some (-ERR_RUN_COMMAND_WAITPID_SIGNAL)
    else if ¬ WIFEXITED status then some (-ERR_RUN_COMMAND_WAITPID_NOEXIT)
    else if WEXITSTATUS status ≠ 0 then some (-(WEXITSTATUS status : Int))
    else some 0

/-- A status word with `WIFEXITED` set cannot also have `WIFSIGNALED` set. -/
lemma WIFEXITED_not_signaled {s : Nat} (h : WIFEXITED s = true) :
    WIFSIGNALED s = false := by
  simp only [WIFEXITED, beq_iff_eq] at h
  simp [WIFSIGNALED, h]

/-- C1: for every process id, `wait_or_whine` retries transparently on
`EINTR` and classifies the first decisive `waitpid` result in exactly this
priority order: non-interrupt wait failure → wait-error (−10003); reported
id differs from the requested id → protocol error (−10004); terminated by a
signal → signaled-termination error (−10005); no normal-exit status →
abnormal-termination error (−10006); normal exit with code 0 → success (0);
normal exit with nonzero code N → child-exit error −N. -/
theorem wait_or_whine_classification (pid w : Int) (s : Nat) (rest : List WaitRes) :
    (wait_or_whine pid (WaitRes.fail Errno.EINTR :: rest) = wait_or_whine pid rest)
    ∧ (wait_or_whine pid (WaitRes.fail Errno.other :: rest)
        = some (-ERR_RUN_COMMAND_WAITPID))
    ∧ (w ≠ pid → wait_or_whine pid (WaitRes.reaped w s :: rest)
        = some (-ERR_RUN_COMMAND_WAITPID_WRONG_PID))
    ∧ (WIFSIGNALED s = true → wait_or_whine pid (WaitRes.reaped pid s :: rest)
        = some (-ERR_RUN_COMMAND_WAITPID_SIGNAL))
    ∧ (WIFSIGNALED s = false → WIFEXITED s = false →
        wait_or_whine pid (WaitRes.reaped pid s :: rest)
        = some (-ERR_RUN_COMMAND_WAITPID_NOEXIT))
    ∧ (WIFEXITED s = true → WEXITSTATUS s = 0 →
        wait_or_whine pid (WaitRes.reaped pid s :: rest) = some 0)
    ∧ (WIFEXITED s = true → WEXITSTATUS s ≠ 0 →
        wait_or_whine pid (WaitRes.reaped pid s :: rest)
        = some (-(WEXITSTATUS s : Int))) := by
  refine ⟨rfl, rfl, ?_, ?_, ?_, ?_, ?_⟩
  · intro hw
    simp [wait_or_whine, hw]
  · intro hs
    simp [wait_or_whine, hs]
  · intro hs he
    simp [wait_or_whine, hs, he]
  · intro he hc
    simp [wait_or_whine, WIFEXITED_not_signaled he, he, hc]
  · intro he hc
    simp [wait_or_whine, WIFEXITED_not_signaled he, he, hc]

/-- Witness for C1: concrete evaluations of every branch of the classifier. -/
theorem wait_or_whine_classification_witness :
    ((3 : Int) ≠ 2
      ∧ wait_or_whine 2 [WaitRes.reaped 3 0] = some (-ERR_RUN_COMMAND_WAITPID_WRONG_PID))
    ∧ (WIFSIGNALED 9 = true
      ∧ wait_or_whine 2 [WaitRes.reaped 2 9] = some (-ERR_RUN_COMMAND_WAITPID_SIGNAL))
    ∧ (WIFSIGNALED 127 = false ∧ WIFEXITED 127 = false
      ∧ wait_or_whine 2 [WaitRes.reaped 2 127] = some (-ERR_RUN_COMMAND_WAITPID_NOEXIT))
    ∧ (WIFEXITED 0 = true ∧ WEXITSTATUS 0 = 0
      ∧ wait_or_whine 2 [WaitRes.reaped 2 0] = some 0)
    ∧ (WIFEXITED 10752 = true ∧ WEXITSTATUS 10752 = 42 ∧ (42 : Nat) ≠ 0
      ∧ wait_or_whine 2 [WaitRes.reaped 2 10752] = some (-42))
    ∧ wait_or_whine 2 [WaitRes.fail Errno.EINTR, WaitRes.fail Errno.other]
        = some (-ERR_RUN_COMMAND_WAITPID) := by
  refine ⟨⟨by decide, (wait_or_whine_classification 2 3 0 []).2.2.1 (by decide)⟩,
    ⟨by decide, (wait_or_whine_classification 2 0 9 []).2.2.2.1 (by decide)⟩,
    ⟨by decide, by decide,
      (wait_or_whine_classification 2 0 127 []).2.2.2.2.1 (by decide) (by decide)⟩,
    ⟨by decide, by decide,
      (wait_or_whine_classification 2 0 0 []).2.2.2.2.2.1 (by decide) (by decide)⟩,
    ⟨by decide, by decide, by decide, ?_⟩, ?_⟩
  · have h := (wait_or_whine_classification 2 0 10752 []).2.2.2.2.2.2
      (by decide) (by decide)
    simpa using h
  · have h := (wait_or_whine_classification 2 0 0 [WaitRes.fail Errno.other]).1
    rw [h]
    rfl

/-- C4: a normal exit with nonzero code N is surfaced as −N; N is at most 255
while every reserved system error code has magnitude at least 10000, so a
child-exit return value never numerically equals a system-level error
return value. -/
theorem child_exit_code_no_collision (pid : Int) (s : Nat) (rest : List WaitRes)
    (he : WIFEXITED s = true) (hc : WEXITSTATUS s ≠ 0) :
    wait_or_whine pid (WaitRes.reaped pid s :: rest) = some (-(WEXITSTATUS s : Int))
    ∧ WEXITSTATUS s ≤ 255
    ∧ ∀ e ∈ sysErrCodes, 10000 ≤ e ∧ (-(WEXITSTATUS s : Int)) ≠ -e := by
  refine ⟨?_, ?_, ?_⟩
  · simp [wait_or_whine, WIFEXITED_not_signaled he, he, hc]
  · have : WEXITSTATUS s < 256 := Nat.mod_lt _ (by norm_num)
    omega
  · intro e hmem
    have hb : WEXITSTATUS s < 256 := Nat.mod_lt _ (by norm_num)
    constructor
    · simp only [sysErrCodes, ERR_RUN_COMMAND_FORK, ERR_RUN_COMMAND_EXEC,
        ERR_RUN_COMMAND_PIPE, ERR_RUN_COMMAND_WAITPID,
        ERR_RUN_COMMAND_WAITPID_WRONG_PID, ERR_RUN_COMMAND_WAITPID_SIGNAL,
        ERR_RUN_COMMAND_WAITPID_NOEXIT, List.mem_cons] at hmem
      rcases hmem with h | h | h | h | h | h | h | h <;> first | (subst h; norm_num) | simp at h
    · have h10 : (10000 : Int) ≤ e := by
        simp only [sysErrCodes, ERR_RUN_COMMAND_FORK, ERR_RUN_COMMAND_EXEC,
          ERR_RUN_COMMAND_PIPE, ERR_RUN_COMMAND_WAITPID,
          ERR_RUN_COMMAND_WAITPID_WRONG_PID, ERR_RUN_COMMAND_WAITPID_SIGNAL,
          ERR_RUN_COMMAND_WAITPID_NOEXIT, List.mem_cons] at hmem
        rcases hmem with h | h | h | h | h | h | h | h <;>
          first | (subst h; norm_num) | simp at h
      intro hEq
      have : (WEXITSTATUS s : Int) = e := by omega
      have : (WEXITSTATUS s : Int) < 256 := by exact_mod_cast hb
      omega

/-- Witness for C4: a child exiting with code 42 yields −42, distinct from
every reserved system error value. -/
theorem child_exit_code_no_collision_witness :
    (WIFEXITED 10752 = true ∧ WEXITSTATUS 10752 ≠ 0)
    ∧ (wait_or_whine 7 [WaitRes.reaped 7 10752] = some (-(WEXITSTATUS 10752 : Int))
        ∧ WEXITSTATUS 10752 ≤ 255
        ∧ ∀ e ∈ sysErrCodes, 10000 ≤ e ∧ (-(WEXITSTATUS 10752 : Int)) ≠ -e) :=
  ⟨⟨by decide, by decide⟩,
    child_exit_code_no_collision 7 10752 [] (by decide) (by decide)⟩

/-- The child environment, as an association list from names to values. -/
abbrev Env := List (String × String)

/-- Look a variable up in an environment. -/
def lookupVar (m : Env) (k : String) : Option String := m.lookup k

/-- `unsetenv(k)`: remove every binding of `k`. -/
def unsetVar (k : String) (m : Env) : Env := m.filter (fun p => p.1 ≠ k)

/-- Set `k` to `v` (the effect of `putenv("k=v")`). -/
def setVar (k v : String) (m : Env) : Env := (k, v) :: unsetVar k m

/-- The variable name of a `"KEY=VALUE"` entry: everything before the first
`=` (stated on the character list of the string). -/
def envKey (s : String) : String := ⟨s.data.takeWhile (· ≠ '=')⟩

/-- The value of a `"KEY=VALUE"` entry: everything after the first `=`. -/
def envVal (s : String) : String := ⟨(s.data.dropWhile (· ≠ '=')).drop 1⟩

/-- One iteration of the environment loop (run-command.c lines 99-104): an
entry containing `=` is `putenv`'ed, a bare name is `unsetenv`'ed. -/
def applyEnvEntry (e : String) (m : Env) : Env :=
  if e.data.contains '=' then setVar (envKey e) (envVal e) m else unsetVar e m

/-- The whole environment loop: entries applied strictly in array order. -/
def applyEnv (es : List String) (m : Env) : Env :=
  es.foldl (fun m e => applyEnvEntry e m) m

/-- The launch request `struct child_process` (run-command.h lines 14-27);
the C field `in` is spelled `in_`. -/
structure ChildProcess where
  argv : List String
  pid : Int
  in_ : Int
  out : Int
  err : Int
  dir : Option String
  env : Option (List String)
  no_stdin : Bool
  no_stdout : Bool
  no_stderr : Bool
  git_cmd : Bool
  stdout_to_stderr : Bool
deriving DecidableEq, Repr

/-- The OS oracle for one launch: whether the n-th `pipe()` call of this
launch succeeds, whether `fork()` succeeds, and the child pid it returns
to the parent when it does. -/
structure Sys where
  pipeOk : Nat → Bool
  forkOk : Bool
  childPid : Int

/-- The child-visible world: which directories exist (for `chdir`) and
whether the final `exec` succeeds. -/
structure World where
  dirs : List String
  execOk : Bool

/-- The parent's file-descriptor table: the next fresh descriptor number,
the set (as a list) of open descriptors, and how many `pipe()` calls have
been made. -/
structure FdState where
  nextFd : Int
  openFds : List Int
  pipeCalls : Nat
deriving DecidableEq, Repr

/-- The descriptor pair a successful `pipe(fd)` call fills in: the two
freshest numbers (read end, write end). -/
def pipeFds (st : FdState) : Int × Int := (st.nextFd, st.nextFd + 1)

/-- The table after a successful `pipe(fd)` call: both fresh descriptors
open, the call counted. -/
def pipeSucceed (st : FdState) : FdState :=
  { nextFd := st.nextFd + 2,
    openFds := st.nextFd :: (st.nextFd + 1) :: st.openFds,
    pipeCalls := st.pipeCalls + 1 }

/-- The table after a failed `pipe(fd)` call: unchanged, the call counted. -/
def pipeFail (st : FdState) : FdState := { st with pipeCalls := st.pipeCalls + 1 }

/-- `close(fd)`. -/
def closeFd (st : FdState) (fd : Int) : FdState :=
  { st with openFds := st.openFds.filter (fun x => x ≠ fd) }

/-- `close_pair` (run-command.c lines 5-9): close both ends. -/
def close_pair (st : FdState) (p : Int × Int) : FdState :=
  closeFd (closeFd st p.1) p.2

/-- `need_in` (line 23): stdin not suppressed and no descriptor given. -/
def need_in (cmd : ChildProcess) : Bool := !cmd.no_stdin && cmd.in_ < 0

/-- `need_out` (lines 30-32). -/
def need_out (cmd : ChildProcess) : Bool :=
  !cmd.no_stdout && !cmd.stdout_to_stderr && cmd.out < 0

/-- `need_err` (line 42). -/
def need_err (cmd : ChildProcess) : Bool := !cmd.no_stderr && cmd.err < 0

/-- What a child standard stream ends up connected to after the wiring
block of the child branch. -/
inductive Binding where
  | devnull
  | fd (n : Int)
  | inherit
deriving DecidableEq, Repr

/-- Modelled from the spec: the fatal handler `die()` (declared in cache.h,
defined in usage.c, not under src/) "terminates the calling process
immediately" (§6) via "an explicit, immediate process exit with a reserved,
distinguishable status code" (§9).  128 is the conventional reserved code;
only its nonzeroness and being a normal exit matter below. -/
def die_exit_code : Nat := 128

/-- The raw wait status the parent observes after the child dies fatally. -/
def die_wait_status : Nat := exit_wait_status die_exit_code

/-- How the child ended: replaced itself by `exec` (recording the dispatch
flag, argv, working directory and final environment), or died fatally with
a raw wait status. -/
inductive ChildOutcome where
  | execed (gitCmd : Bool) (argv : List String) (cwd : Option String) (env : Env)
  | died (status : Nat)
deriving DecidableEq, Repr

/-- The reified child branch: the three stream bindings and the outcome. -/
structure ChildRun where
  stdinB : Binding
  stdoutB : Binding
  stderrB : Binding
  outcome : ChildOutcome
deriving DecidableEq, Repr

/-- The result of `start_command`: the return code, the (possibly updated)
request, the parent's descriptor table, the parent's environment after the
call, the pipe pairs allocated for each stream (ghost record of the
allocator), and the child branch if a child was created. -/
structure LaunchResult where
  ret : Int
  cmd : ChildProcess
  st : FdState
  penvAfter : Env
  pin : Option (Int × Int)
  pout : Option (Int × Int)
  perr : Option (Int × Int)
  child : Option ChildRun

/-- The tail of the child branch after the stream wiring and `chdir`
succeeded (lines 98-111): apply the environment entries in order, then
exec (`execv_git_cmd` or `execvp`); exec failure is fatal (`die`). -/
def child_post_chdir (world : World) (penv : Env) (cmd : ChildProcess) : ChildOutcome :=
  let cenv := match cmd.env with
    | some es => applyEnv es penv
    | none => penv
  if world.execOk then ChildOutcome.execed cmd.git_cmd cmd.argv cmd.dir cenv
  else ChildOutcome.died die_wait_status

/-- The child branch (lines 65-112): wire stdin/stdout/stderr in resolution
order, then `chdir` (failure is fatal, `die`), environment, exec. -/
def child_branch (world : World) (penv : Env) (cmd : ChildProcess)
    (fdin fdout fderr : Option (Int × Int)) : ChildRun :=
  let stdinB :=
    if cmd.no_stdin then Binding.devnull
    else match fdin with
      | some p => Binding.fd p.1
      | none => if cmd.in_ ≠ 0 then Binding.fd cmd.in_ else Binding.inherit
  let stdoutB :=
    if cmd.no_stdout then Binding.devnull
    else if cmd.stdout_to_stderr then Binding.fd 2
    else match fdout with
      | some p => Binding.fd p.2
      | none => if cmd.out > 1 then Binding.fd cmd.out else Binding.inherit
  let stderrB :=
    if cmd.no_stderr then Binding.devnull
    else match fderr with
      | some p => Binding.fd p.2
      | none => Binding.inherit
  let outcome :=
    match cmd.dir with
    | some d =>
      if world.dirs.contains d then child_post_chdir world penv cmd
      else ChildOutcome.died die_wait_status
    | none => child_post_chdir world penv cmd
  ⟨stdinB, stdoutB, stderrB, outcome⟩

/-- The fork and both branches (lines 54-127).  On fork failure every
allocated pipe pair is closed and `-ERR_RUN_COMMAND_FORK` returned.  On
success the child branch is reified, and the parent closes the child-owned
end of each allocated pipe — or, for stdin/stdout, the caller-supplied
descriptor it handed off. -/
def fork_and_wire (sys : Sys) (world : World) (penv : Env) (cmd : ChildProcess)
    (st : FdState) (fdin fdout fderr : Option (Int × Int)) : LaunchResult :=
  if sys.forkOk then
    let cmd := { cmd with pid := sys.childPid }
    let child := child_branch world penv cmd fdin fdout fderr
    let st := match fdin with
      | some p => closeFd st p.1
      | none => if cmd.in_ ≠ 0 then closeFd st cmd.in_ else st
    let st := match fdout with
      | some p => closeFd st p.2
      | none => if cmd.out > 1 then closeFd st cmd.out else st
    let st := match fderr with
      | some p => closeFd st p.2
      | none => st
    ⟨0, cmd, st, penv, fdin, fdout, fderr, some child⟩
  else
    let st := match fdin with
      | some p => close_pair st p
      | none => st
    let st := match fdout with
      | some p => close_pair st p
      | none => st
    let st := match fderr with
      | some p => close_pair st p
      | none => st
    ⟨-ERR_RUN_COMMAND_FORK, { cmd with pid := -1 }, st, penv, fdin, fdout, fderr, none⟩

/-- The stderr-pipe step of `start_command` (lines 42-52): allocate if
needed; on failure close the stdin and stdout pipes already allocated and
return `-ERR_RUN_COMMAND_PIPE`; on success store the read end in `cmd.err`.
The need flag `nErr` is passed in: the C computes `need_err` from
`no_stderr` and `err`, fields no earlier step mutates, so computing it
before the stdin/stdout steps is equivalent. -/
def start_command_err (sys : Sys) (world : World) (penv : Env) (cmd : ChildProcess)
    (st : FdState) (fdin fdout : Option (Int × Int)) (nErr : Bool) : LaunchResult :=
  if nErr then
    if sys.pipeOk st.pipeCalls then
      let p := pipeFds st
      fork_and_wire sys world penv { cmd with err := p.1 } (pipeSucceed st) fdin fdout (some p)
    else
      let st := pipeFail st
      let st := match fdin with
        | some p => close_pair st p
        | none => st
      let st := match fdout with
        | some p => close_pair st p
        | none => st
      ⟨-ERR_RUN_COMMAND_PIPE, cmd, st, penv, fdin, fdout, none, none⟩
  else fork_and_wire sys world penv cmd st fdin fdout none

/-- The stdout-pipe step of `start_command` (lines 30-40): allocate if
needed; on failure close the stdin pipe already allocated and return
`-ERR_RUN_COMMAND_PIPE`; on success store the read end in `cmd.out`.
The need flags are passed in: the C computes `need_out` from `no_stdout`,
`stdout_to_stderr` and `out`, fields the stdin step does not mutate, so
computing it up front is equivalent. -/
def start_command_out (sys : Sys) (world : World) (penv : Env) (cmd : ChildProcess)
    (st : FdState) (fdin : Option (Int × Int)) (nOut nErr : Bool) : LaunchResult :=
  if nOut then
    if sys.pipeOk st.pipeCalls then
      let p := pipeFds st
      start_command_err sys world penv { cmd with out := p.1 } (pipeSucceed st) fdin (some p) nErr
    else
      let st := pipeFail st
      let st := match fdin with
        | some p => close_pair st p
        | none => st
      ⟨-ERR_RUN_COMMAND_PIPE, cmd, st, penv, fdin, none, none, none⟩
  else start_command_err sys world penv cmd st fdin none nErr

/-- `start_command` (lines 18-128), beginning with the stdin-pipe step
(lines 23-28): allocate if needed (failure returns `-ERR_RUN_COMMAND_PIPE`
with nothing to roll back); on success store the write end in `cmd.in_`. -/
def start_command (sys : Sys) (world : World) (penv : Env) (cmd : ChildProcess)
    (st : FdState) : LaunchResult :=
  if need_in cmd then
    if sys.pipeOk st.pipeCalls then
      let p := pipeFds st
      start_command_out sys world penv { cmd with in_ := p.2 } (pipeSucceed st) (some p)
        (need_out cmd) (need_err cmd)
    else ⟨-ERR_RUN_COMMAND_PIPE, cmd, pipeFail st, penv, none, none, none, none⟩
  else start_command_out sys world penv cmd st none (need_out cmd) (need_err cmd)

/-- `finish_command` (lines 156-159): reap `cmd.pid` through the exit
translator. -/
def finish_command (cmd : ChildProcess) (waits : List WaitRes) : Option Int :=
  wait_or_whine cmd.pid waits

/-- `run_command` (lines 161-167): launch, and if that succeeded, reap. -/
def run_command (sys : Sys) (world : World) (penv : Env) (cmd : ChildProcess)
    (st : FdState) (waits : List WaitRes) : Option Int :=
  let r := start_command sys world penv cmd st
  if r.ret ≠ 0 then some r.ret else finish_command r.cmd waits

/-- `prepare_run_command_v_opt` (lines 169-178): zero the whole request,
then set `argv` and the three option-driven flags. -/
def prepare_run_command_v_opt (argv : List String) (opt : Nat) : ChildProcess :=
  { argv := argv, pid := 0, in_ := 0, out := 0, err := 0,
    dir := none, env := none,
    no_stdin := opt &&& 1 ≠ 0,
    no_stdout := false, no_stderr := false,
    git_cmd := opt &&& 2 ≠ 0,
    stdout_to_stderr := opt &&& 4 ≠ 0 }

/-- `run_command_v_opt` (lines 180-185). -/
def run_command_v_opt (sys : Sys) (world : World) (penv : Env) (st : FdState)
    (waits : List WaitRes) (argv : List String) (opt : Nat) : Option Int :=
  run_command sys world penv (prepare_run_command_v_opt argv opt) st waits

/-- `run_command_v_opt_cd` (lines 187-193). -/
def run_command_v_opt_cd (sys : Sys) (world : World) (penv : Env) (st : FdState)
    (waits : List WaitRes) (argv : List String) (opt : Nat) (dir : String) : Option Int :=
  run_command sys world penv
    { prepare_run_command_v_opt argv opt with dir := some dir } st waits

/-- `run_command_v_opt_cd_env` (lines 195-202). -/
def run_command_v_opt_cd_env (sys : Sys) (world : World) (penv : Env) (st : FdState)
    (waits : List WaitRes) (argv : List String) (opt : Nat) (dir : String)
    (env : List String) : Option Int :=
  run_command sys world penv
    { prepare_run_command_v_opt argv opt with dir := some dir, env := some env } st waits

/-- Modelled from the spec: the return value of the error reporter
`error(...)` (declared in cache.h, defined in usage.c, not under src/);
per §7 "all resource- and wait-level failures are returned to the caller
as ordinary error values", and the value is negative (a failure). -/
def error_ret : Int := -1

/-- The async request `struct async` (run-command.h lines 53-62),
parameterized by the type of the opaque context `data`; `proc` is the
producer callback, modelled by the value it returns for a given write
descriptor and context. -/
structure Async (α : Type) where
  proc : Int → α → Int
  data : α
  out : Int
  pid : Int

/-- The reified child of `start_async`: the descriptor it closed (the read
end), the descriptor handed to the producer (the write end), and the exit
status it terminates with (`!!proc(...)`). -/
structure AsyncChild where
  closedFd : Int
  procFd : Int
  exitStatus : Nat
deriving DecidableEq, Repr

/-- The result of `start_async`: return code, updated request, parent
descriptor table, and the child if one was created. -/
structure AsyncResult (α : Type) where
  ret : Int
  async : Async α
  st : FdState
  child : Option AsyncChild

/-- `start_async` (run-command.c lines 204-224): allocate one pipe (failure
returns the error reporter's value); fork (failure closes both ends and
returns −1); the child closes the read end and exits with `!!proc(writeEnd,
data)`; the parent stores the read end in `out` and closes the write end. -/
def start_async {α : Type} (sys : Sys) (a : Async α) (st : FdState) : AsyncResult α :=
  if sys.pipeOk st.pipeCalls then
    let p := pipeFds st
    let st := pipeSucceed st
    if sys.forkOk then
      let child : AsyncChild :=
        ⟨p.1, p.2, if a.proc p.2 a.data = 0 then 0 else 1⟩
      ⟨0, { a with pid := sys.childPid, out := p.1 }, closeFd st p.2, some child⟩
    else
      ⟨-1, { a with pid := -1 }, close_pair st p, none⟩
  else ⟨error_ret, a, pipeFail st, none⟩

/-- `finish_async` (run-command.c lines 226-233): reap through the exit
translator; any nonzero classification is reported via the error reporter. -/
def finish_async {α : Type} (a : Async α) (waits : List WaitRes) : Option Int :=
  match wait_or_whine a.pid waits with
  | none => none
  | some w => if w ≠ 0 then some error_ret else some 0

/-- Closing a descriptor at least as large as every open one leaves the
table's open set unchanged. -/
lemma filter_ne_of_lt (l : List Int) (n m : Int) (h : ∀ x ∈ l, x < n) (hnm : n ≤ m) :
    l.filter (fun x => x ≠ m) = l := by
  refine List.filter_eq_self.mpr fun a ha => ?_
  have := h a ha
  simp only [ne_eq, decide_eq_true_eq]
  omega

/-- Removing one freshly stacked pipe pair restores the original open set. -/
lemma remove_stack_one (nf : Int) (l : List Int) (hl : ∀ x ∈ l, x < nf) :
    ((nf :: (nf + 1) :: l).filter (fun x => x ≠ nf)).filter (fun x => x ≠ nf + 1) = l := by
  have e1 : ((nf + 1 : Int) ≠ nf) := by omega
  simp only [List.filter_cons, List.filter_filter]
  simp [e1]
  intro a ha
  have := hl a ha
  omega

/-- Removing two freshly stacked pipe pairs (allocation order: the
`(nf, nf+1)` pair first, the `(nf+2, nf+2+1)` pair on top; closed in
allocation order) restores the original open set. -/
lemma remove_stack_two (nf : Int) (l : List Int) (hl : ∀ x ∈ l, x < nf) :
    (((((nf + 2) :: (nf + 2 + 1) :: nf :: (nf + 1) :: l).filter
      (fun x => x ≠ nf)).filter (fun x => x ≠ nf + 1)).filter
      (fun x => x ≠ nf + 2)).filter (fun x => x ≠ nf + 2 + 1) = l := by
  have q1 : ((nf : Int) ≠ nf + 1) := by omega
  have q2 : ((nf : Int) ≠ nf + 2) := by omega
  have q3 : ((nf : Int) ≠ nf + 2 + 1) := by omega
  have q4 : ((nf + 1 : Int) ≠ nf) := by omega
  have q5 : ((nf + 1 : Int) ≠ nf + 2) := by omega
  have q6 : ((nf + 1 : Int) ≠ nf + 2 + 1) := by omega
  have q7 : ((nf + 2 : Int) ≠ nf) := by omega
  have q8 : ((nf + 2 : Int) ≠ nf + 1) := by omega
  have q9 : ((nf + 2 : Int) ≠ nf + 2 + 1) := by omega
  have q10 : ((nf + 2 + 1 : Int) ≠ nf) := by omega
  have q11 : ((nf + 2 + 1 : Int) ≠ nf + 1) := by omega
  have q12 : ((nf + 2 + 1 : Int) ≠ nf + 2) := by omega
  simp [List.filter_cons, List.filter_filter, q1, q2, q3, q4, q5, q6, q7, q8, q9, q10, q11, q12]
  intro a ha
  have := hl a ha
  omega

/-- Removing three freshly stacked pipe pairs (closed in allocation order)
restores the original open set. -/
lemma remove_stack_three (nf : Int) (l : List Int) (hl : ∀ x ∈ l, x < nf) :
    (((((((nf + 2 + 2) :: (nf + 2 + 2 + 1) :: (nf + 2) :: (nf + 2 + 1) :: nf :: (nf + 1) :: l).filter
      (fun x => x ≠ nf)).filter (fun x => x ≠ nf + 1)).filter
      (fun x => x ≠ nf + 2)).filter (fun x => x ≠ nf + 2 + 1)).filter
      (fun x => x ≠ nf + 2 + 2)).filter (fun x => x ≠ nf + 2 + 2 + 1) = l := by
  have q1 : ((nf : Int) ≠ nf + 1) := by omega
  have q2 : ((nf : Int) ≠ nf + 2) := by omega
  have q3 : ((nf : Int) ≠ nf + 2 + 1) := by omega
  have q4 : ((nf : Int) ≠ nf + 2 + 2) := by omega
  have q5 : ((nf : Int) ≠ nf + 2 + 2 + 1) := by omega
  have q6 : ((nf + 1 : Int) ≠ nf) := by omega
  have q7 : ((nf + 1 : Int) ≠ nf + 2) := by omega
  have q8 : ((nf + 1 : Int) ≠ nf + 2 + 1) := by omega
  have q9 : ((nf + 1 : Int) ≠ nf + 2 + 2) := by omega
  have q10 : ((nf + 1 : Int) ≠ nf + 2 + 2 + 1) := by omega
  have q11 : ((nf + 2 : Int) ≠ nf) := by omega
  have q12 : ((nf + 2 : Int) ≠ nf + 1) := by omega
  have q13 : ((nf + 2 : Int) ≠ nf + 2 + 1) := by omega
  have q14 : ((nf + 2 : Int) ≠ nf + 2 + 2) := by omega
  have q15 : ((nf + 2 : Int) ≠ nf + 2 + 2 + 1) := by omega
  have q16 : ((nf + 2 + 1 : Int) ≠ nf) := by omega
  have q17 : ((nf + 2 + 1 : Int) ≠ nf + 1) := by omega
  have q18 : ((nf + 2 + 1 : Int) ≠ nf + 2) := by omega
  have q19 : ((nf + 2 + 1 : Int) ≠ nf + 2 + 2) := by omega
  have q20 : ((nf + 2 + 1 : Int) ≠ nf + 2 + 2 + 1) := by omega
  have q21 : ((nf + 2 + 2 : Int) ≠ nf) := by omega
  have q22 : ((nf + 2 + 2 : Int) ≠ nf + 1) := by omega
  have q23 : ((nf + 2 + 2 : Int) ≠ nf + 2) := by omega
  have q24 : ((nf + 2 + 2 : Int) ≠ nf + 2 + 1) := by omega
  have q25 : ((nf + 2 + 2 : Int) ≠ nf + 2 + 2 + 1) := by omega
  have q26 : ((nf + 2 + 2 + 1 : Int) ≠ nf) := by omega
  have q27 : ((nf + 2 + 2 + 1 : Int) ≠ nf + 1) := by omega
  have q28 : ((nf + 2 + 2 + 1 : Int) ≠ nf + 2) := by omega
  have q29 : ((nf + 2 + 2 + 1 : Int) ≠ nf + 2 + 1) := by omega
  have q30 : ((nf + 2 + 2 + 1 : Int) ≠ nf + 2 + 2) := by omega
  simp [List.filter_cons, List.filter_filter, q1, q2, q3, q4, q5, q6, q7, q8, q9, q10, q11, q12, q13, q14, q15, q16, q17, q18, q19, q20, q21, q22, q23, q24, q25, q26, q27, q28, q29, q30]
  intro a ha
  have := hl a ha
  omega

set_option maxHeartbeats 1600000 in
lemma start_command_ret_cases (sys : Sys) (world : World) (penv : Env)
    (cmd : ChildProcess) (nf : Int) (l : List Int) (pc : Nat)
    (hfresh : ∀ x ∈ l, x < nf) :
    ((start_command sys world penv cmd ⟨nf, l, pc⟩).ret = 0 ∧ sys.forkOk = true)
    ∨ ((start_command sys world penv cmd ⟨nf, l, pc⟩).st.openFds = l
      ∧ (start_command sys world penv cmd ⟨nf, l, pc⟩).child = none
      ∧ ((start_command sys world penv cmd ⟨nf, l, pc⟩).ret = -ERR_RUN_COMMAND_PIPE
        ∨ (start_command sys world penv cmd ⟨nf, l, pc⟩).ret = -ERR_RUN_COMMAND_FORK)) := by
  generalize hR : start_command sys world penv cmd ⟨nf, l, pc⟩ = R
  unfold start_command start_command_out start_command_err fork_and_wire
    pipeFds pipeSucceed pipeFail close_pair closeFd at hR
  dsimp only [] at hR
  revert hR
  cases hni : need_in cmd <;> cases hno : need_out cmd <;> cases hne : need_err cmd <;>
    cases hp0 : sys.pipeOk pc <;> cases hp1 : sys.pipeOk (pc + 1) <;>
    cases hp2 : sys.pipeOk (pc + 1 + 1) <;> cases hf : sys.forkOk <;>
    (intro hR; subst hR) <;>
    first
    | exact Or.inl ⟨rfl, rfl⟩
    | exact Or.inr ⟨rfl, rfl, Or.inl rfl⟩
    | exact Or.inr ⟨rfl, rfl, Or.inr rfl⟩
    | exact Or.inr ⟨remove_stack_one nf l hfresh, rfl, Or.inl rfl⟩
    | exact Or.inr ⟨remove_stack_one nf l hfresh, rfl, Or.inr rfl⟩
    | exact Or.inr ⟨remove_stack_two nf l hfresh, rfl, Or.inl rfl⟩
    | exact Or.inr ⟨remove_stack_two nf l hfresh, rfl, Or.inr rfl⟩
    | exact Or.inr ⟨remove_stack_three nf l hfresh, rfl, Or.inr rfl⟩

/-- Fixture: an OS oracle on which every pipe call and the fork succeed. -/
def sysAllOk : Sys := ⟨fun _ => true, true, 42⟩

/-- Fixture: an OS oracle on which every pipe call and the fork fail. -/
def sysAllFail : Sys := ⟨fun _ => false, false, 42⟩

/-- Fixture: a child-visible world with no directories and a working exec. -/
def world0 : World := ⟨[], true⟩

/-- Fixture: a descriptor table with descriptors 0, 1, 2 open. -/
def st10 : FdState := ⟨10, [0, 1, 2], 0⟩

/-- Fixture: a request asking for all three pipes. -/
def cmdPipes : ChildProcess :=
  ⟨["cat"], 0, -1, -1, -1, none, none, false, false, false, false, false⟩

/-- C2: whenever `start_command` fails — a pipe allocation for any stream
failed, or the fork failed — every pipe allocated earlier in the same
launch has been closed again (the open-descriptor set is exactly the one
before the call), a negative resource error (−ERR_RUN_COMMAND_PIPE or
−ERR_RUN_COMMAND_FORK) is returned, and no child process was created;
moreover a fork failure always makes the launch fail, and a failing pipe
call for a needed stdin pipe yields −ERR_RUN_COMMAND_PIPE with nothing
leaked. -/
theorem start_command_failure_rollback (sys : Sys) (world : World) (penv : Env)
    (cmd : ChildProcess) (nf : Int) (l : List Int) (pc : Nat)
    (hfresh : ∀ x ∈ l, x < nf) :
    ((start_command sys world penv cmd ⟨nf, l, pc⟩).ret ≠ 0 →
      (start_command sys world penv cmd ⟨nf, l, pc⟩).st.openFds = l
      ∧ (start_command sys world penv cmd ⟨nf, l, pc⟩).child = none
      ∧ ((start_command sys world penv cmd ⟨nf, l, pc⟩).ret = -ERR_RUN_COMMAND_PIPE
        ∨ (start_command sys world penv cmd ⟨nf, l, pc⟩).ret = -ERR_RUN_COMMAND_FORK))
    ∧ (sys.forkOk = false → (start_command sys world penv cmd ⟨nf, l, pc⟩).ret ≠ 0)
    ∧ (need_in cmd = true → sys.pipeOk pc = false →
        (start_command sys world penv cmd ⟨nf, l, pc⟩).ret = -ERR_RUN_COMMAND_PIPE
        ∧ (start_command sys world penv cmd ⟨nf, l, pc⟩).st.openFds = l
        ∧ (start_command sys world penv cmd ⟨nf, l, pc⟩).child = none) := by
  refine ⟨?_, ?_, ?_⟩
  · intro hret
    rcases start_command_ret_cases sys world penv cmd nf l pc hfresh with h | h
    · exact absurd h.1 hret
    · exact h
  · intro hfk hret
    rcases start_command_ret_cases sys world penv cmd nf l pc hfresh with h | h
    · rw [hfk] at h
      exact Bool.false_ne_true h.2
    · rcases h.2.2 with h' | h' <;> rw [h'] at hret <;>
        simp [ERR_RUN_COMMAND_PIPE, ERR_RUN_COMMAND_FORK] at hret
  · intro hin hp
    simp only [start_command, hin, hp, if_true, if_false, Bool.false_eq_true]
    exact ⟨trivial, rfl, trivial⟩

/-- Witness for C2: with every pipe call failing and a stdin pipe needed,
the launch returns −ERR_RUN_COMMAND_PIPE, leaks nothing, and creates no
child. -/
theorem start_command_failure_rollback_witness :
    (∀ x ∈ ([0, 1, 2] : List Int), x < (10 : Int))
    ∧ (need_in cmdPipes = true ∧ sysAllFail.pipeOk 0 = false)
    ∧ ((start_command sysAllFail world0 [] cmdPipes ⟨10, [0, 1, 2], 0⟩).ret
        = -ERR_RUN_COMMAND_PIPE
      ∧ (start_command sysAllFail world0 [] cmdPipes ⟨10, [0, 1, 2], 0⟩).st.openFds
        = [0, 1, 2]
      ∧ (start_command sysAllFail world0 [] cmdPipes ⟨10, [0, 1, 2], 0⟩).child = none) :=
  ⟨by decide, ⟨by decide, by decide⟩,
    (start_command_failure_rollback sysAllFail world0 [] cmdPipes 10 [0, 1, 2] 0
      (by decide)).2.2 (by decide) (by decide)⟩

/-- Fixture: a request with all three streams suppressed and explicit
descriptors supplied (which suppression must override). -/
def cmdSuppress : ChildProcess :=
  ⟨["x"], 0, 5, 6, 7, none, none, true, true, true, false, true⟩

/-- C3: the wiring of each child stream follows suppressed > explicit
descriptor > auto-pipe.  Whenever the launch creates a child: a set
suppress flag binds that stream to the null device whatever the
descriptor fields, redirect flag or pipe state say, and a non-negative
descriptor field prevents a pipe from being allocated for that stream. -/
theorem start_command_stream_resolution (sys : Sys) (world : World) (penv : Env)
    (cmd : ChildProcess) (st : FdState)
    (hp : ∀ n, sys.pipeOk n = true) (hf : sys.forkOk = true) :
    ∃ c, (start_command sys world penv cmd st).child = some c
      ∧ (cmd.no_stdin = true → c.stdinB = Binding.devnull)
      ∧ (cmd.no_stdout = true → c.stdoutB = Binding.devnull)
      ∧ (cmd.no_stderr = true → c.stderrB = Binding.devnull)
      ∧ (0 ≤ cmd.in_ → (start_command sys world penv cmd st).pin = none)
      ∧ (0 ≤ cmd.out → (start_command sys world penv cmd st).pout = none)
      ∧ (0 ≤ cmd.err → (start_command sys world penv cmd st).perr = none) := by
  generalize hR : start_command sys world penv cmd st = R
  unfold start_command start_command_out start_command_err fork_and_wire
    pipeFds pipeSucceed pipeFail close_pair closeFd at hR
  dsimp only [] at hR
  rw [hf] at hR
  simp only [hp] at hR
  revert hR
  cases hni : need_in cmd <;> cases hno : need_out cmd <;> cases hne : need_err cmd <;>
    (intro hR; subst hR) <;>
    refine ⟨_, rfl, ?_, ?_, ?_, ?_, ?_, ?_⟩ <;>
    first
    | (intro h; simp [child_branch, h]; done)
    | (intro h; rfl)
    | (intro h; simp [need_in] at hni; omega)
    | (intro h; simp [need_out] at hno; omega)
    | (intro h; simp [need_err] at hne; omega)

/-- Witness for C3: the resolution-order theorem applied to a concrete
request with every stream suppressed and explicit descriptors supplied. -/
theorem start_command_stream_resolution_witness :
    ∃ c, (start_command sysAllOk world0 [] cmdSuppress st10).child = some c
      ∧ (cmdSuppress.no_stdin = true → c.stdinB = Binding.devnull)
      ∧ (cmdSuppress.no_stdout = true → c.stdoutB = Binding.devnull)
      ∧ (cmdSuppress.no_stderr = true → c.stderrB = Binding.devnull)
      ∧ (0 ≤ cmdSuppress.in_ → (start_command sysAllOk world0 [] cmdSuppress st10).pin = none)
      ∧ (0 ≤ cmdSuppress.out → (start_command sysAllOk world0 [] cmdSuppress st10).pout = none)
      ∧ (0 ≤ cmdSuppress.err → (start_command sysAllOk world0 [] cmdSuppress st10).perr = none) :=
  start_command_stream_resolution sysAllOk world0 [] cmdSuppress st10 (fun _ => rfl) rfl

/-- Fixture: a request supplying an explicit pre-opened descriptor for each
stream (5 for stdin, 6 for stdout, 7 for stderr), nothing suppressed. -/
def cmdExplicit : ChildProcess :=
  ⟨["x"], 0, 5, 6, 7, none, none, false, false, false, false, false⟩

/-- Counterexample to C5: with an explicit stderr descriptor (err = 7,
suppression off) the child leaves stderr inherited — it is never bound to
the supplied descriptor, unlike stdin and stdout. -/
theorem explicit_stderr_fd_not_bound :
    cmdExplicit.err = 7 ∧ cmdExplicit.no_stderr = false
    ∧ ((start_command sysAllOk world0 [] cmdExplicit st10).child.map ChildRun.stderrB)
        = some Binding.inherit
    ∧ Binding.inherit ≠ Binding.fd 7
    ∧ ((start_command sysAllOk world0 [] cmdExplicit st10).child.map ChildRun.stdinB)
        = some (Binding.fd 5)
    ∧ ((start_command sysAllOk world0 [] cmdExplicit st10).child.map ChildRun.stdoutB)
        = some (Binding.fd 6) := by
  exact ⟨rfl, rfl, rfl, by decide, rfl, rfl⟩

/-- C5 as amended: stdin and stdout support the explicit pre-opened
descriptor state (the child binds them via dup2), but stderr does not:
with an explicit descriptor in `err` and suppression off, the child's
stderr stays inherited; stderr supports only the suppressed and auto-pipe
states. -/
theorem explicit_fd_stdin_stdout_only (sys : Sys) (world : World) (penv : Env)
    (cmd : ChildProcess) (st : FdState)
    (hp : ∀ n, sys.pipeOk n = true) (hf : sys.forkOk = true) :
    ∃ c, (start_command sys world penv cmd st).child = some c
      ∧ (cmd.no_stdin = false → need_in cmd = false → cmd.in_ ≠ 0 →
          c.stdinB = Binding.fd cmd.in_)
      ∧ (cmd.no_stdout = false → cmd.stdout_to_stderr = false → need_out cmd = false →
          cmd.out > 1 → c.stdoutB = Binding.fd cmd.out)
      ∧ (cmd.no_stderr = false → 0 ≤ cmd.err → c.stderrB = Binding.inherit) := by
  generalize hR : start_command sys world penv cmd st = R
  unfold start_command start_command_out start_command_err fork_and_wire
    pipeFds pipeSucceed pipeFail close_pair closeFd at hR
  dsimp only [] at hR
  rw [hf] at hR
  simp only [hp] at hR
  revert hR
  cases hni : need_in cmd <;> cases hno : need_out cmd <;> cases hne : need_err cmd <;>
    (intro hR; subst hR) <;>
    refine ⟨_, rfl, ?_, ?_, ?_⟩ <;>
    first
    | (intro h1 h2 h3; exact Bool.noConfusion h2)
    | (intro h1 h2 h3 h4; exact Bool.noConfusion h3)
    | (intro h1 h2 h3; simp [child_branch, h1, h3]; done)
    | (intro h1 h2 h3 h4; simp [child_branch, h1, h2, h4]; done)
    | (intro h1 h2; simp [child_branch, h1]; done)
    | (intro h1 h2; simp [need_err] at hne; omega)

/-- Witness for C5's amended statement: applied to the concrete request
with explicit descriptors 5/6/7 for the three streams. -/
theorem explicit_fd_stdin_stdout_only_witness :
    ∃ c, (start_command sysAllOk world0 [] cmdExplicit st10).child = some c
      ∧ (cmdExplicit.no_stdin = false → need_in cmdExplicit = false → cmdExplicit.in_ ≠ 0 →
          c.stdinB = Binding.fd cmdExplicit.in_)
      ∧ (cmdExplicit.no_stdout = false → cmdExplicit.stdout_to_stderr = false →
          need_out cmdExplicit = false → cmdExplicit.out > 1 →
          c.stdoutB = Binding.fd cmdExplicit.out)
      ∧ (cmdExplicit.no_stderr = false → 0 ≤ cmdExplicit.err → c.stderrB = Binding.inherit) :=
  explicit_fd_stdin_stdout_only sysAllOk world0 [] cmdExplicit st10 (fun _ => rfl) rfl

/-- With the pipe call and the fork succeeding, the child that
`start_async` creates closes the read end and exits with the
producer-derived status. -/
lemma start_async_child_eq {α : Type} (sys : Sys) (a : Async α) (st : FdState)
    (hp : sys.pipeOk st.pipeCalls = true) (hf : sys.forkOk = true) :
    (start_async sys a st).child
      = some ⟨st.nextFd, st.nextFd + 1,
          if a.proc (st.nextFd + 1) a.data = 0 then 0 else 1⟩ := by
  simp only [start_async, pipeFds, pipeSucceed, hp, hf, if_true]

/-- C6: with the pipe call and the fork succeeding, `start_async` allocates
exactly one pipe; the child closes the read end and invokes the producer
with the write end and the context, terminating with exit status 0 when
the producer returned 0 and with exit status 1 (never the producer's raw
return value) otherwise; the parent stores the read end in `out`, records
the pid, closes the write end (the read end stays open), and returns 0. -/
theorem start_async_spec {α : Type} (sys : Sys) (a : Async α) (st : FdState)
    (hp : sys.pipeOk st.pipeCalls = true) (hf : sys.forkOk = true) :
    (start_async sys a st).ret = 0
    ∧ (start_async sys a st).st.pipeCalls = st.pipeCalls + 1
    ∧ (start_async sys a st).async.out = st.nextFd
    ∧ (start_async sys a st).async.pid = sys.childPid
    ∧ (start_async sys a st).child
        = some ⟨st.nextFd, st.nextFd + 1,
            if a.proc (st.nextFd + 1) a.data = 0 then 0 else 1⟩
    ∧ (a.proc (st.nextFd + 1) a.data = 0 →
        (start_async sys a st).child.map AsyncChild.exitStatus = some 0)
    ∧ (a.proc (st.nextFd + 1) a.data ≠ 0 →
        (start_async sys a st).child.map AsyncChild.exitStatus = some 1)
    ∧ st.nextFd + 1 ∉ (start_async sys a st).st.openFds
    ∧ st.nextFd ∈ (start_async sys a st).st.openFds := by
  have h0 : start_async sys a st
      = ⟨0, { a with pid := sys.childPid, out := st.nextFd },
          closeFd (pipeSucceed st) (st.nextFd + 1),
          some ⟨st.nextFd, st.nextFd + 1,
            if a.proc (st.nextFd + 1) a.data = 0 then 0 else 1⟩⟩ := by
    simp only [start_async, pipeFds, pipeSucceed, hp, hf, if_true]
  rw [h0]
  refine ⟨rfl, rfl, rfl, rfl, rfl, ?_, ?_, ?_, ?_⟩
  · intro h
    simp [h]
  · intro h
    simp [h]
  · simp [closeFd, pipeSucceed]
  · simp [closeFd, pipeSucceed]

/-- Witness for C6: a producer returning 7 on descriptor table `st10`
makes the worker exit with status 1, with the read end 10 kept open. -/
theorem start_async_spec_witness :
    (sysAllOk.pipeOk st10.pipeCalls = true ∧ sysAllOk.forkOk = true)
    ∧ ((start_async sysAllOk ⟨fun _ _ => 7, (), 0, 0⟩ st10).ret = 0
      ∧ (start_async sysAllOk ⟨fun _ _ => 7, (), 0, 0⟩ st10).st.pipeCalls = st10.pipeCalls + 1
      ∧ (start_async sysAllOk ⟨fun _ _ => 7, (), 0, 0⟩ st10).async.out = st10.nextFd
      ∧ (start_async sysAllOk ⟨fun _ _ => 7, (), 0, 0⟩ st10).async.pid = sysAllOk.childPid
      ∧ (start_async sysAllOk ⟨fun _ _ => 7, (), 0, 0⟩ st10).child
          = some ⟨st10.nextFd, st10.nextFd + 1,
              if (fun (_ : Int) (_ : Unit) => (7 : Int)) (st10.nextFd + 1) () = 0 then 0 else 1⟩
      ∧ ((fun (_ : Int) (_ : Unit) => (7 : Int)) (st10.nextFd + 1) () = 0 →
          (start_async sysAllOk ⟨fun _ _ => 7, (), 0, 0⟩ st10).child.map AsyncChild.exitStatus
            = some 0)
      ∧ ((fun (_ : Int) (_ : Unit) => (7 : Int)) (st10.nextFd + 1) () ≠ 0 →
          (start_async sysAllOk ⟨fun _ _ => 7, (), 0, 0⟩ st10).child.map AsyncChild.exitStatus
            = some 1)
      ∧ st10.nextFd + 1 ∉ (start_async sysAllOk ⟨fun _ _ => 7, (), 0, 0⟩ st10).st.openFds
      ∧ st10.nextFd ∈ (start_async sysAllOk ⟨fun _ _ => 7, (), 0, 0⟩ st10).st.openFds) :=
  ⟨⟨rfl, rfl⟩, start_async_spec sysAllOk ⟨fun _ _ => 7, (), 0, 0⟩ st10 rfl rfl⟩

/-- C7: `finish_async` reports failure (a negative value, the error
reporter's −1) exactly when the exit translator classifies the worker's
pid as non-success; in particular, through `start_async`, a producer
returning nonzero makes the worker exit with status 1 and `finish_async`
return the negative error value, while a producer returning 0 makes
`finish_async` return 0. -/
theorem finish_async_failure_iff {α : Type} (sys : Sys) (a : Async α) (st : FdState)
    (hp : sys.pipeOk st.pipeCalls = true) (hf : sys.forkOk = true) :
    (∀ (b : Async α) (waits : List WaitRes) (w : Int),
      finish_async b waits = some w → (w < 0 ↔ wait_or_whine b.pid waits ≠ some 0))
    ∧ (∀ c, (start_async sys a st).child = some c →
        (a.proc c.procFd a.data = 0 →
          finish_async (start_async sys a st).async
            [WaitRes.reaped (start_async sys a st).async.pid (exit_wait_status c.exitStatus)]
            = some 0)
        ∧ (a.proc c.procFd a.data ≠ 0 →
          finish_async (start_async sys a st).async
            [WaitRes.reaped (start_async sys a st).async.pid (exit_wait_status c.exitStatus)]
            = some error_ret
          ∧ error_ret < 0)) := by
  constructor
  · intro b waits w hw
    unfold finish_async at hw
    cases hwo : wait_or_whine b.pid waits with
    | none => rw [hwo] at hw; exact absurd hw (by simp)
    | some v =>
      rw [hwo] at hw
      by_cases hv : v = 0
      · subst hv
        simp at hw
        subst hw
        simp [hwo]
      · simp [hv] at hw
        subst hw
        simp [hwo, error_ret, hv]
  · intro c hc
    have hc' : c = ⟨st.nextFd, st.nextFd + 1,
        if a.proc (st.nextFd + 1) a.data = 0 then 0 else 1⟩ := by
      have h := start_async_child_eq sys a st hp hf
      rw [h] at hc
      exact (Option.some_inj.mp hc).symm
    subst hc'
    constructor
    · intro h
      simp only [start_async, pipeFds, pipeSucceed, hp, hf, if_true]
      simp only [AsyncChild.procFd] at h
      simp [finish_async, wait_or_whine, h, exit_wait_status, WIFSIGNALED, WIFEXITED,
        WEXITSTATUS]
    · intro h
      simp only [AsyncChild.procFd] at h
      refine ⟨?_, by simp [error_ret]⟩
      simp only [start_async, pipeFds, pipeSucceed, hp, hf, if_true]
      simp [finish_async, wait_or_whine, h, exit_wait_status, WIFSIGNALED, WIFEXITED,
        WEXITSTATUS, error_ret]

/-- Witness for C7: with a producer returning 3 the worker exits with
status 1 and `finish_async` reports −1; the general iff applied at a
concrete failing wait list. -/
theorem finish_async_failure_iff_witness :
    ((start_async sysAllOk ⟨fun _ _ => 3, (), 0, 0⟩ st10).child
        = some ⟨10, 11, 1⟩
      ∧ (finish_async (start_async sysAllOk ⟨fun _ _ => 3, (), 0, 0⟩ st10).async
          [WaitRes.reaped (start_async sysAllOk ⟨fun _ _ => 3, (), 0, 0⟩ st10).async.pid
            (exit_wait_status (1 : Nat))] = some error_ret
        ∧ error_ret < 0))
    ∧ (finish_async (⟨fun _ _ => 3, (), 0, 9⟩ : Async Unit) [WaitRes.reaped 9 256] = some (-1)
      ∧ ((-1 : Int) < 0 ↔ wait_or_whine (9 : Int) [WaitRes.reaped 9 256] ≠ some 0)) := by
  refine ⟨⟨by decide, ?_⟩, ⟨by decide, ?_⟩⟩
  · exact ((finish_async_failure_iff sysAllOk ⟨fun _ _ => 3, (), 0, 0⟩ st10 rfl rfl).2
      ⟨10, 11, 1⟩ (by decide)).2 (by decide)
  · exact (finish_async_failure_iff sysAllOk (⟨fun _ _ => 3, (), 0, 9⟩ : Async Unit) st10
      rfl rfl).1 ⟨fun _ _ => 3, (), 0, 9⟩ [WaitRes.reaped 9 256] (-1) (by decide)

/-- Looking up a variable after `unsetenv` on it finds nothing. -/
lemma lookup_unsetVar (k : String) (m : Env) : lookupVar (unsetVar k m) k = none := by
  induction m with
  | nil => rfl
  | cons p t ih =>
    obtain ⟨a, b⟩ := p
    by_cases h : a = k
    · have e : unsetVar k ((a, b) :: t) = unsetVar k t := by simp [unsetVar, h]
      rw [e]
      exact ih
    · have e : unsetVar k ((a, b) :: t) = (a, b) :: unsetVar k t := by simp [unsetVar, h]
      rw [e]
      have hk : (k == a) = false := beq_eq_false_iff_ne.mpr (Ne.symm h)
      simp only [lookupVar, List.lookup, hk]
      exact ih

/-- Looking up a variable right after setting it finds the value. -/
lemma lookup_setVar (k v : String) (m : Env) : lookupVar (setVar k v m) k = some v := by
  simp [setVar, lookupVar, List.lookup]

/-- The environment loop over a concatenation runs the left part first. -/
lemma applyEnv_append (xs ys : List String) (m : Env) :
    applyEnv (xs ++ ys) m = applyEnv ys (applyEnv xs m) := by
  simp [applyEnv, List.foldl_append]

/-- A bare `"FOO"` entry is an unset. -/
lemma applyEnv_bare_FOO (m : Env) : applyEnv ["FOO"] m = unsetVar "FOO" m := by
  show applyEnvEntry "FOO" m = unsetVar "FOO" m
  rw [applyEnvEntry, if_neg (by decide)]

/-- With `chdir` succeeding (or no directory set), the exec succeeding and
an environment list given, the child branch ends in an exec carrying the
environment obtained by applying the entries in order. -/
lemma child_branch_outcome_exec (world : World) (penv : Env) (cmd : ChildProcess)
    (fdin fdout fderr : Option (Int × Int)) (entries : List String)
    (hdir : ∀ d, cmd.dir = some d → world.dirs.contains d = true)
    (hexec : world.execOk = true) (henv : cmd.env = some entries) :
    (child_branch world penv cmd fdin fdout fderr).outcome
      = ChildOutcome.execed cmd.git_cmd cmd.argv cmd.dir (applyEnv entries penv) := by
  cases hd : cmd.dir with
  | none => simp [child_branch, child_post_chdir, hd, henv, hexec]
  | some d =>
    have hmem : d ∈ world.dirs := by simpa using hdir d hd
    simp [child_branch, child_post_chdir, hd, henv, hexec, hmem]

/-- C8: the child applies environment entries strictly in array order
before exec (the loop is a left fold); an entry containing `=` sets the
variable and a bare name unsets it, so `"FOO=bar"` followed later by a
bare `"FOO"` leaves FOO unset; the application happens only in the child
branch — the parent's environment after the launch is unchanged, and the
child's exec carries exactly the folded environment. -/
theorem env_applied_in_order_child_only (sys : Sys) (world : World) (penv : Env)
    (cmd : ChildProcess) (st : FdState) (entries : List String)
    (hp : ∀ n, sys.pipeOk n = true) (hf : sys.forkOk = true)
    (hdir : ∀ d, cmd.dir = some d → world.dirs.contains d = true)
    (hexec : world.execOk = true) (henv : cmd.env = some entries) :
    (start_command sys world penv cmd st).penvAfter = penv
    ∧ (∃ c, (start_command sys world penv cmd st).child = some c
        ∧ c.outcome
          = ChildOutcome.execed cmd.git_cmd cmd.argv cmd.dir (applyEnv entries penv))
    ∧ (∀ e rest m, applyEnv (e :: rest) m = applyEnv rest (applyEnvEntry e m))
    ∧ (∀ m, lookupVar (applyEnvEntry "FOO=bar" m) "FOO" = some "bar")
    ∧ (∀ l1 l2 m, lookupVar (applyEnv (l1 ++ ["FOO=bar"] ++ l2 ++ ["FOO"]) m) "FOO" = none) := by
  have hmain : (start_command sys world penv cmd st).penvAfter = penv
      ∧ ∃ c, (start_command sys world penv cmd st).child = some c
        ∧ c.outcome
          = ChildOutcome.execed cmd.git_cmd cmd.argv cmd.dir (applyEnv entries penv) := by
    generalize hR : start_command sys world penv cmd st = R
    unfold start_command start_command_out start_command_err fork_and_wire
      pipeFds pipeSucceed pipeFail close_pair closeFd at hR
    dsimp only [] at hR
    rw [hf] at hR
    simp only [hp] at hR
    revert hR
    cases hni : need_in cmd <;> cases hno : need_out cmd <;> cases hne : need_err cmd <;>
      (intro hR; subst hR) <;>
      exact ⟨rfl, _, rfl,
        child_branch_outcome_exec world penv _ _ _ _ entries hdir hexec henv⟩
  refine ⟨hmain.1, hmain.2, fun e rest m => rfl, ?_, ?_⟩
  · intro m
    have hk : envKey "FOO=bar" = "FOO" := by decide
    have hv : envVal "FOO=bar" = "bar" := by decide
    rw [applyEnvEntry, if_pos (by decide), hk, hv]
    exact lookup_setVar "FOO" "bar" m
  · intro l1 l2 m
    rw [applyEnv_append, applyEnv_bare_FOO]
    exact lookup_unsetVar "FOO" (applyEnv (l1 ++ ["FOO=bar"] ++ l2) m)

/-- Fixture: a request with the environment list FOO=bar, X=1, FOO. -/
def cmdEnv : ChildProcess :=
  ⟨["prog"], 0, 0, 0, 0, none, some ["FOO=bar", "X=1", "FOO"], false, false, false,
    false, false⟩

/-- Witness for C8: the theorem applied to a concrete request whose list
sets FOO, sets X, then unsets FOO; FOO ends up absent from the child's
exec environment. -/
theorem env_applied_in_order_child_only_witness :
    ((start_command sysAllOk world0 [] cmdEnv st10).penvAfter = []
      ∧ (∃ c, (start_command sysAllOk world0 [] cmdEnv st10).child = some c
          ∧ c.outcome = ChildOutcome.execed cmdEnv.git_cmd cmdEnv.argv cmdEnv.dir
              (applyEnv ["FOO=bar", "X=1", "FOO"] []))
      ∧ (∀ e rest m, applyEnv (e :: rest) m = applyEnv rest (applyEnvEntry e m))
      ∧ (∀ m, lookupVar (applyEnvEntry "FOO=bar" m) "FOO" = some "bar")
      ∧ (∀ l1 l2 m, lookupVar (applyEnv (l1 ++ ["FOO=bar"] ++ l2 ++ ["FOO"]) m) "FOO" = none))
    ∧ lookupVar (applyEnv ["FOO=bar", "X=1", "FOO"] []) "FOO" = none
    ∧ lookupVar (applyEnv ["FOO=bar", "X=1", "FOO"] []) "X" = some "1" :=
  ⟨env_applied_in_order_child_only sysAllOk world0 [] cmdEnv st10 ["FOO=bar", "X=1", "FOO"]
      (fun _ => rfl) rfl (fun d hd => Option.noConfusion hd) rfl rfl,
    by decide, by decide⟩

/-- With the working directory set to a path that does not exist, the
child branch dies fatally at the `chdir` step, before any exec. -/
lemma child_branch_outcome_died (world : World) (penv : Env) (cmd : ChildProcess)
    (fdin fdout fderr : Option (Int × Int)) (d : String)
    (hd : cmd.dir = some d) (hnd : world.dirs.contains d = false) :
    (child_branch world penv cmd fdin fdout fderr).outcome
      = ChildOutcome.died die_wait_status := by
  have hmem : d ∉ world.dirs := by simpa using hnd
  simp [child_branch, hd, hmem]

/-- Fixture: a request whose working directory does not exist in `world0`. -/
def cmdBadDir : ChildProcess :=
  ⟨["prog"], 0, 0, 0, 0, some "/nonexistent", none, false, false, false, false, false⟩

/-- Counterexample to C9: with a nonexistent working directory the child
dies via the fatal handler — modelled from the spec as an immediate normal
exit with the reserved nonzero status 128 — so `run_command` observes the
child-exit error −128, which is neither the signaled-termination error
(−10005) nor the abnormal-termination error (−10006); it is also not 0. -/
theorem chdir_failure_not_abnormal_counterexample :
    run_command sysAllOk world0 [] cmdBadDir st10
        [WaitRes.reaped 42 die_wait_status] = some (-128)
    ∧ ((-128 : Int) ≠ -ERR_RUN_COMMAND_WAITPID_SIGNAL)
    ∧ ((-128 : Int) ≠ -ERR_RUN_COMMAND_WAITPID_NOEXIT)
    ∧ (some (-128 : Int) ≠ some (0 : Int)) := by
  refine ⟨?_, by decide, by decide, by decide⟩
  rfl

/-- C9 as amended: for every configuration whose working directory is set
to a nonexistent path, the child terminates fatally at the `chdir` step
and never reaches exec, the parent's launch itself still succeeds (the
parent is unaffected), and the parent's run/reap observes a non-success
negative outcome — the child-exit error carrying the fatal handler's
reserved nonzero status — never the success value 0. -/
theorem chdir_failure_fatal_before_exec (sys : Sys) (world : World) (penv : Env)
    (cmd : ChildProcess) (st : FdState) (d : String)
    (hp : ∀ n, sys.pipeOk n = true) (hf : sys.forkOk = true)
    (hd : cmd.dir = some d) (hnd : world.dirs.contains d = false) :
    (start_command sys world penv cmd st).ret = 0
    ∧ (∃ c, (start_command sys world penv cmd st).child = some c
        ∧ c.outcome = ChildOutcome.died die_wait_status
        ∧ ∀ g av cw en, c.outcome ≠ ChildOutcome.execed g av cw en)
    ∧ run_command sys world penv cmd st
        [WaitRes.reaped sys.childPid die_wait_status] = some (-(die_exit_code : Int))
    ∧ (-(die_exit_code : Int) < 0)
    ∧ run_command sys world penv cmd st
        [WaitRes.reaped sys.childPid die_wait_status] ≠ some 0 := by
  have hmain : (start_command sys world penv cmd st).ret = 0
      ∧ (start_command sys world penv cmd st).cmd.pid = sys.childPid
      ∧ ∃ c, (start_command sys world penv cmd st).child = some c
        ∧ c.outcome = ChildOutcome.died die_wait_status := by
    generalize hR : start_command sys world penv cmd st = R
    unfold start_command start_command_out start_command_err fork_and_wire
      pipeFds pipeSucceed pipeFail close_pair closeFd at hR
    dsimp only [] at hR
    rw [hf] at hR
    simp only [hp] at hR
    revert hR
    cases hni : need_in cmd <;> cases hno : need_out cmd <;> cases hne : need_err cmd <;>
      (intro hR; subst hR) <;>
      exact ⟨rfl, rfl, _, rfl,
        child_branch_outcome_died world penv _ _ _ _ d hd hnd⟩
  obtain ⟨hret, hpid, c, hc, hout⟩ := hmain
  have hw : wait_or_whine sys.childPid [WaitRes.reaped sys.childPid die_wait_status]
      = some (-(die_exit_code : Int)) := by
    simp [wait_or_whine, die_wait_status, exit_wait_status, die_exit_code,
      WIFSIGNALED, WIFEXITED, WEXITSTATUS]
  have hrun : run_command sys world penv cmd st
      [WaitRes.reaped sys.childPid die_wait_status] = some (-(die_exit_code : Int)) := by
    simp only [run_command, finish_command, hret, ne_eq, not_true_eq_false, if_false,
      ite_false]
    · rw [hpid]
      exact hw
  refine ⟨hret, ⟨c, hc, hout, ?_⟩, hrun, by norm_num [die_exit_code], ?_⟩
  · intro g av cw en hcontra
    rw [hout] at hcontra
    exact ChildOutcome.noConfusion hcontra
  · rw [hrun]
    intro hcontra
    have := Option.some_inj.mp hcontra
    norm_num [die_exit_code] at this

/-- Witness for C9's amended statement: applied to the concrete request
with directory "/nonexistent" in a world with no directories. -/
theorem chdir_failure_fatal_before_exec_witness :
    (start_command sysAllOk world0 [] cmdBadDir st10).ret = 0
    ∧ (∃ c, (start_command sysAllOk world0 [] cmdBadDir st10).child = some c
        ∧ c.outcome = ChildOutcome.died die_wait_status
        ∧ ∀ g av cw en, c.outcome ≠ ChildOutcome.execed g av cw en)
    ∧ run_command sysAllOk world0 [] cmdBadDir st10
        [WaitRes.reaped sysAllOk.childPid die_wait_status] = some (-(die_exit_code : Int))
    ∧ (-(die_exit_code : Int) < 0)
    ∧ run_command sysAllOk world0 [] cmdBadDir st10
        [WaitRes.reaped sysAllOk.childPid die_wait_status] ≠ some 0 :=
  chdir_failure_fatal_before_exec sysAllOk world0 [] cmdBadDir st10 "/nonexistent"
    (fun _ => rfl) rfl rfl rfl

/-- For a request whose three stream fields are 0 with stdout/stderr not
suppressed, no pipe is needed or allocated, the parent's descriptor table
is completely untouched, and the child leaves a stream with field 0 alone:
stdin is null-bound only under the suppress flag and inherited otherwise,
stdout is bound to stderr's descriptor only under the redirect flag and
inherited otherwise, stderr is inherited. -/
lemma start_command_zero_streams (sys : Sys) (world : World) (penv : Env)
    (cmd : ChildProcess) (st : FdState)
    (h0 : cmd.in_ = 0) (h1 : cmd.out = 0) (h2 : cmd.err = 0)
    (h3 : cmd.no_stdout = false) (h4 : cmd.no_stderr = false) :
    need_in cmd = false ∧ need_out cmd = false ∧ need_err cmd = false
    ∧ (start_command sys world penv cmd st).pin = none
    ∧ (start_command sys world penv cmd st).pout = none
    ∧ (start_command sys world penv cmd st).perr = none
    ∧ (start_command sys world penv cmd st).st = st
    ∧ (sys.forkOk = true →
        ∃ c, (start_command sys world penv cmd st).child = some c
          ∧ c.stdinB = (if cmd.no_stdin then Binding.devnull else Binding.inherit)
          ∧ c.stdoutB = (if cmd.stdout_to_stderr then Binding.fd 2 else Binding.inherit)
          ∧ c.stderrB = Binding.inherit) := by
  have hni : need_in cmd = false := by simp [need_in, h0]
  have hno : need_out cmd = false := by simp [need_out, h1]
  have hne : need_err cmd = false := by simp [need_err, h2]
  have key : start_command sys world penv cmd st
      = fork_and_wire sys world penv cmd st none none none := by
    simp only [start_command, start_command_out, start_command_err, hni, hno, hne,
      Bool.false_eq_true, if_false]
  rw [key]
  refine ⟨hni, hno, hne, ?_⟩
  cases hfk : sys.forkOk with
  | false =>
    have hrec : fork_and_wire sys world penv cmd st none none none
        = ⟨-ERR_RUN_COMMAND_FORK, { cmd with pid := -1 }, st, penv,
            none, none, none, none⟩ := by
      simp [fork_and_wire, hfk]
    rw [hrec]
    exact ⟨rfl, rfl, rfl, rfl, fun h => Bool.noConfusion h⟩
  | true =>
    have hrec : fork_and_wire sys world penv cmd st none none none
        = ⟨0, { cmd with pid := sys.childPid }, st, penv, none, none, none,
            some (child_branch world penv { cmd with pid := sys.childPid }
              none none none)⟩ := by
      simp [fork_and_wire, hfk, h0, h1]
    rw [hrec]
    refine ⟨rfl, rfl, rfl, rfl, fun _ => ⟨_, rfl, ?_, ?_, ?_⟩⟩
    · simp [child_branch, h0]
    · simp [child_branch, h1, h3]
    · simp [child_branch, h4]

/-- C10: the three convenience wrappers zero-initialize the whole request
— argv plus the three option flags are the only fields set (plus `dir`,
`env` for the cd/cd_env variants) — leaving `in`, `out`, `err` at 0.
Auto-piping triggers only on a strictly negative stream field, so these
wrappers never allocate a pipe, never touch the parent's descriptor
table, and a stream field of 0 is a fourth state, inherit, distinct from
the null-device, explicit-descriptor and auto-pipe states: the child
leaves the stream untouched and the parent closes nothing for it. -/
theorem v_opt_wrappers_inherit_streams (argv : List String) (opt : Nat) (dir : String)
    (env : List String) (sys : Sys) (world : World) (penv : Env) (st : FdState) :
    ((prepare_run_command_v_opt argv opt).in_ = 0
      ∧ (prepare_run_command_v_opt argv opt).out = 0
      ∧ (prepare_run_command_v_opt argv opt).err = 0
      ∧ (prepare_run_command_v_opt argv opt).dir = none
      ∧ (prepare_run_command_v_opt argv opt).env = none
      ∧ (prepare_run_command_v_opt argv opt).no_stdout = false
      ∧ (prepare_run_command_v_opt argv opt).no_stderr = false)
    ∧ (need_in (prepare_run_command_v_opt argv opt) = false
      ∧ need_out (prepare_run_command_v_opt argv opt) = false
      ∧ need_err (prepare_run_command_v_opt argv opt) = false
      ∧ (start_command sys world penv (prepare_run_command_v_opt argv opt) st).pin = none
      ∧ (start_command sys world penv (prepare_run_command_v_opt argv opt) st).pout = none
      ∧ (start_command sys world penv (prepare_run_command_v_opt argv opt) st).perr = none
      ∧ (start_command sys world penv (prepare_run_command_v_opt argv opt) st).st = st
      ∧ (sys.forkOk = true →
          ∃ c, (start_command sys world penv (prepare_run_command_v_opt argv opt) st).child
              = some c
            ∧ c.stdinB = (if (prepare_run_command_v_opt argv opt).no_stdin
                then Binding.devnull else Binding.inherit)
            ∧ c.stdoutB = (if (prepare_run_command_v_opt argv opt).stdout_to_stderr
                then Binding.fd 2 else Binding.inherit)
            ∧ c.stderrB = Binding.inherit))
    ∧ (need_in { prepare_run_command_v_opt argv opt with dir := some dir } = false
      ∧ need_out { prepare_run_command_v_opt argv opt with dir := some dir } = false
      ∧ need_err { prepare_run_command_v_opt argv opt with dir := some dir } = false
      ∧ (start_command sys world penv
          { prepare_run_command_v_opt argv opt with dir := some dir } st).pin = none
      ∧ (start_command sys world penv
          { prepare_run_command_v_opt argv opt with dir := some dir } st).pout = none
      ∧ (start_command sys world penv
          { prepare_run_command_v_opt argv opt with dir := some dir } st).perr = none
      ∧ (start_command sys world penv
          { prepare_run_command_v_opt argv opt with dir := some dir } st).st = st)
    ∧ (need_in { prepare_run_command_v_opt argv opt with dir := some dir, env := some env }
        = false
      ∧ need_out { prepare_run_command_v_opt argv opt with dir := some dir, env := some env }
        = false
      ∧ need_err { prepare_run_command_v_opt argv opt with dir := some dir, env := some env }
        = false
      ∧ (start_command sys world penv
          { prepare_run_command_v_opt argv opt with dir := some dir, env := some env } st).pin
        = none
      ∧ (start_command sys world penv
          { prepare_run_command_v_opt argv opt with dir := some dir, env := some env } st).pout
        = none
      ∧ (start_command sys world penv
          { prepare_run_command_v_opt argv opt with dir := some dir, env := some env } st).perr
        = none
      ∧ (start_command sys world penv
          { prepare_run_command_v_opt argv opt with dir := some dir, env := some env } st).st
        = st)
    ∧ Binding.inherit ≠ Binding.devnull
    ∧ (∀ n, Binding.inherit ≠ Binding.fd n) := by
  have H1 := start_command_zero_streams sys world penv (prepare_run_command_v_opt argv opt)
    st rfl rfl rfl rfl rfl
  have H2 := start_command_zero_streams sys world penv
    { prepare_run_command_v_opt argv opt with dir := some dir } st rfl rfl rfl rfl rfl
  have H3 := start_command_zero_streams sys world penv
    { prepare_run_command_v_opt argv opt with dir := some dir, env := some env } st
    rfl rfl rfl rfl rfl
  exact ⟨⟨rfl, rfl, rfl, rfl, rfl, rfl, rfl⟩,
    ⟨H1.1, H1.2.1, H1.2.2.1, H1.2.2.2.1, H1.2.2.2.2.1, H1.2.2.2.2.2.1,
      H1.2.2.2.2.2.2.1, H1.2.2.2.2.2.2.2⟩,
    ⟨H2.1, H2.2.1, H2.2.2.1, H2.2.2.2.1, H2.2.2.2.2.1, H2.2.2.2.2.2.1,
      H2.2.2.2.2.2.2.1⟩,
    ⟨H3.1, H3.2.1, H3.2.2.1, H3.2.2.2.1, H3.2.2.2.2.1, H3.2.2.2.2.2.1,
      H3.2.2.2.2.2.2.1⟩,
    fun h => Binding.noConfusion h, fun n h => Binding.noConfusion h⟩

/-- Witness for C10: the wrapper theorem applied at a concrete option word
(opt = 5 sets no_stdin and stdout_to_stderr), with concrete evaluations of
the wrapper configuration. -/
theorem v_opt_wrappers_inherit_streams_witness :
    (prepare_run_command_v_opt ["true"] 5).in_ = 0
    ∧ (prepare_run_command_v_opt ["true"] 5).out = 0
    ∧ (prepare_run_command_v_opt ["true"] 5).err = 0
    ∧ (prepare_run_command_v_opt ["true"] 5).no_stdin = true
    ∧ (prepare_run_command_v_opt ["true"] 5).git_cmd = false
    ∧ (prepare_run_command_v_opt ["true"] 5).stdout_to_stderr = true
    ∧ need_in (prepare_run_command_v_opt ["true"] 5) = false
    ∧ need_out (prepare_run_command_v_opt ["true"] 5) = false
    ∧ need_err (prepare_run_command_v_opt ["true"] 5) = false
    ∧ (start_command sysAllOk world0 [] (prepare_run_command_v_opt ["true"] 5) st10).pin
      = none
    ∧ (start_command sysAllOk world0 [] (prepare_run_command_v_opt ["true"] 5) st10).st
      = st10 :=
  have H := v_opt_wrappers_inherit_streams ["true"] 5 "/" ["A=b"] sysAllOk world0 [] st10
  ⟨rfl, rfl, rfl, rfl, rfl, rfl, H.2.1.1, H.2.1.2.1, H.2.1.2.2.1,
    H.2.1.2.2.2.1, H.2.1.2.2.2.2.2.2.1⟩
